import Mathlib

/-!
Verification of the APSW VFS bridge (src/src/vfs.c): a shallow embedding of
the native-call dispatch entry points, the Python-side delegation methods,
and the registry lifecycle, together with theorems settling the frozen
claims about them.

The embedding models machine integers as Nat (SQLite result codes are
nonnegative), byte buffers as List Nat, the Python interpreter's pending
exception as an Option value inside an explicit state record, and the
outcome of invoking a managed (Python) method as an Except value supplied
as a parameter to the dispatch function (the bridge never inspects how the
managed side computed it).
-/

namespace ApswVfs

/-- SQLite result codes used by vfs.c; values taken from sqlite3.h. -/
def SQLITE_OK : Nat := 0

/-- Generic error code. -/
def SQLITE_ERROR : Nat := 1

/-- Resource busy / would-block code. -/
def SQLITE_BUSY : Nat := 5

/-- Out of memory code. -/
def SQLITE_NOMEM : Nat := 7

/-- I/O error family base code. -/
def SQLITE_IOERR : Nat := 10

/-- Cannot open code. -/
def SQLITE_CANTOPEN : Nat := 14

/-- String or result too big code. -/
def SQLITE_TOOBIG : Nat := 18

/-- Extended code SQLITE_IOERR | (2 shifted left 8): the dedicated short
read status. -/
def SQLITE_IOERR_SHORT_READ : Nat := SQLITE_IOERR + 2 * 256

/-- The kinds of Python-level exception states that vfs.c creates or
observes.  The userExc constructor stands for an arbitrary exception
raised inside a managed callback, carrying the native status code the
error bridge maps it to; sqliteExc is an exception raised by the bridge
itself from a native status code (SET_EXC). -/
inductive ExcKind
  | typeError (msg : String)
  | overflowError (msg : String)
  | valueErrorBaseNotFound (vfsname : String)
  | valueErrorBadVersion (version : Nat)
  | vfsNotImplemented (meth : String)
  | vfsFileClosed
  | sqliteExc (code : Nat)
  | userExc (code : Nat)
  deriving DecidableEq

/-- Modelled from the spec: MakeSqliteMsgFromPyException lives in the
repository outside src (apsw.c).  Per the spec's Error/Exception Bridge
contract it maps a managed-side fault to the nearest native error code
with a generic "error" code as fallback; an error code is never the
success code. -/
def MakeSqliteMsgFromPyException : ExcKind → Nat
  | .sqliteExc c => if c = SQLITE_OK then SQLITE_ERROR else c
  | .userExc c => if c = SQLITE_OK then SQLITE_ERROR else c
  | _ => SQLITE_ERROR

/-- The interpreter-level error state visible to vfs.c: the pending
exception (PyErr_Occurred / PyErr_Fetch / PyErr_Restore) and the log of
faults sent to the unraisable sink. -/
structure PyState where
  pending : Option ExcKind
  unraisables : List ExcKind
  deriving DecidableEq

/-- PyErr_Fetch: returns the pending exception and clears it. -/
def pyErrFetch (s : PyState) : Option ExcKind × PyState :=
  (s.pending, { s with pending := none })

/-- PyErr_Restore: sets the pending exception to the saved value. -/
def pyErrRestore (saved : Option ExcKind) (s : PyState) : PyState :=
  { s with pending := saved }

/-- PyErr_Format / raising an exception: makes it the pending exception. -/
def pyRaise (e : ExcKind) (s : PyState) : PyState :=
  { s with pending := some e }

/-- PyErr_Clear: drops the pending exception. -/
def pyErrClear (s : PyState) : PyState :=
  { s with pending := none }

/-- apsw_write_unraiseable as invoked by the postamble macros: if an
exception is pending it is consumed and recorded in the unraisable sink,
otherwise nothing happens. -/
def apsw_write_unraiseable (s : PyState) : PyState :=
  match s.pending with
  | some e => { pending := none, unraisables := s.unraisables ++ [e] }
  | none => s

/-- The VFSPREAMBLE / VFSPOSTAMBLE macro pair wrapped around every
whole-VFS native entry point: fetch (save and clear) the caller's pending
exception, run the body, route any exception the body left pending to the
unraisable sink, and restore the caller's pending exception. -/
def runVFSEntry {α : Type} (body : PyState → α × PyState) (s : PyState) :
    α × PyState :=
  let fetched := pyErrFetch s
  let r := body fetched.2
  (r.1, pyErrRestore fetched.1 (apsw_write_unraiseable r.2))

/-- The FILEPREAMBLE / FILEPOSTAMBLE macro pair wrapped around every
per-file native entry point; identical error-state discipline to
runVFSEntry. -/
def runFileEntry {α : Type} (body : PyState → α × PyState) (s : PyState) :
    α × PyState :=
  let fetched := pyErrFetch s
  let r := body fetched.2
  (r.1, pyErrRestore fetched.1 (apsw_write_unraiseable r.2))

/-- Shapes a managed xAccess return value can have after the
PyIntLong_Check test in apswvfs_xAccess: an integer (of unbounded
magnitude, as Python ints are), or something that is not a number. -/
inductive PyVal
  | int (z : Int)
  | notNumber
  deriving DecidableEq

/-- The range check performed by PyIntLong_AsLong: a Python int outside
the native signed 64-bit long range cannot be converted; the conversion
raises an OverflowError and yields -1. -/
def fitsCLong (z : Int) : Bool :=
  -(2 ^ 63) ≤ z && z < 2 ^ 63

/-- apswvfs_xAccess (vfs.c): calls the managed xAccess; an integer result
within the native long range is normalised with a double negation into
the out parameter; an integer beyond that range makes PyIntLong_AsLong
raise an OverflowError (its -1 return is double-negated into the out
parameter, only for the finally block to override it); a non-number
raises a TypeError; in the finally block any pending exception forces the
out parameter to 0 and the result code comes from the exception bridge.
Returns ((result code, pResOut), state). -/
def apswvfs_xAccess (m : Except ExcKind PyVal) (s : PyState) :
    (Nat × Nat) × PyState :=
  runVFSEntry (fun s0 =>
    match m with
    | .error e =>
        ((MakeSqliteMsgFromPyException e, 0), pyRaise e s0)
    | .ok (.int z) =>
        if fitsCLong z then
          ((SQLITE_OK, if z = 0 then 0 else 1), s0)
        else
          ((MakeSqliteMsgFromPyException
              (.overflowError "Python int too large to convert to C long"), 0),
            pyRaise (.overflowError "Python int too large to convert to C long") s0)
    | .ok .notNumber =>
        ((MakeSqliteMsgFromPyException (.typeError "xAccess should return a number"), 0),
          pyRaise (.typeError "xAccess should return a number") s0)) s

/-- Shapes a managed xRead return value can have after the buffer checks
in apswvfsfile_xRead: a readable byte buffer, or a unicode/non-buffer
object. -/
inductive XReadResult
  | buffer (data : List Nat)
  | notBuffer
  deriving DecidableEq

/-- apswvfsfile_xRead (vfs.c): calls the managed xRead.  A short managed
buffer (size strictly below amount) zero-fills the whole amount-byte
output region, copies the data over the front and reports the dedicated
short-read code; a buffer of at least amount bytes has exactly amount
bytes copied with a success result.  Faults leave the output region
untouched.  Returns ((result code, output region), state); bufout is the
amount-byte output region handed in by the engine. -/
def apswvfsfile_xRead (m : Except ExcKind XReadResult) (amount : Nat)
    (bufout : List Nat) (s : PyState) : (Nat × List Nat) × PyState :=
  runFileEntry (fun s0 =>
    match m with
    | .error e =>
        ((MakeSqliteMsgFromPyException e, bufout), pyRaise e s0)
    | .ok .notBuffer =>
        ((SQLITE_ERROR, bufout),
          pyRaise (.typeError "Object returned from xRead should be bytes buffer string") s0)
    | .ok (.buffer data) =>
        if data.length < amount then
          ((SQLITE_IOERR_SHORT_READ, data ++ List.replicate (amount - data.length) 0), s0)
        else
          ((SQLITE_OK, data.take amount), s0)) s

/-- apswvfsfile_xLock (vfs.c): calls the managed xLock.  On a fault the
exception bridge supplies the result code; when the low byte of that code
is the busy code the exception is cleared (a busy exception is normal)
so the postamble does not route it to the unraisable sink. -/
def apswvfsfile_xLock (m : Except ExcKind Unit) (flag : Nat) (s : PyState) :
    Nat × PyState :=
  runFileEntry (fun s0 =>
    match m with
    | .error e =>
        let result := MakeSqliteMsgFromPyException e
        if result % 256 = SQLITE_BUSY then (result, pyErrClear (pyRaise e s0))
        else (result, pyRaise e s0)
    | .ok _ => (SQLITE_OK, s0)) s

/-- Shapes a managed xFullPathname return value can have after
getutf8string in apswvfs_xFullPathname: a UTF-8 byte string (terminator
not included), or something not convertible to a string. -/
inductive FullPathResult
  | str (utf8 : List Nat)
  | notStr
  deriving DecidableEq

/-- apswvfs_xFullPathname (vfs.c): calls the managed xFullPathname.  nOut
is the engine-provided capacity (mxPathname plus one, terminator
included); a result whose encoding plus terminator exceeds nOut yields
the dedicated too-big code without touching the output buffer, otherwise
the bytes plus terminator are copied over the front of the buffer.
Returns ((result code, output buffer), state). -/
def apswvfs_xFullPathname (m : Except ExcKind FullPathResult) (nOut : Nat)
    (zOut : List Nat) (s : PyState) : (Nat × List Nat) × PyState :=
  runVFSEntry (fun s0 =>
    match m with
    | .error e =>
        ((MakeSqliteMsgFromPyException e, zOut), pyRaise e s0)
    | .ok .notStr =>
        ((SQLITE_ERROR, zOut),
          pyRaise (.typeError "xFullPathname result not convertible to string") s0)
    | .ok (.str u) =>
        if u.length + 1 > nOut then
          ((SQLITE_TOOBIG, zOut), pyRaise (.sqliteExc SQLITE_TOOBIG) s0)
        else
          ((SQLITE_OK, (u ++ [0]) ++ zOut.drop (u.length + 1)), s0)) s

/-- The observable behaviour of the underlying sqlite3_io_methods table a
delegating (inheriting) file forwards to.  xClose is always present in a
valid table (apswvfsfilepy_xClose calls it unconditionally) and is
modelled by the status code it returns; every other slot may be absent
(NULL pointer), which VFSFILENOTIMPLEMENTED turns into a dedicated
not-implemented fault.  Slots taking arguments are functions from the
marshalled arguments to the status code and any out values. -/
structure IoMethods where
  xClose : Nat
  xRead : Option (Nat → Int → Nat × List Nat)
  xWrite : Option (List Nat → Int → Nat)
  xTruncate : Option (Int → Nat)
  xSync : Option (Nat → Nat)
  xLock : Option (Nat → Nat)
  xUnlock : Option (Nat → Nat)
  xCheckReservedLock : Option (Nat × Nat)
  xFileControl : Option (Nat → Int → Nat)
  xSectorSize : Option Nat
  xDeviceCharacteristics : Option Nat
  xFileSize : Option (Nat × Int)

/-- The sqlite3_file record underneath an APSWVFSFile wrapper. -/
structure SQLite3File where
  pMethods : IoMethods

/-- The APSWVFSFile Python object: base is the engine-opened file it
delegates to, or none once closed (apswvfsfilepy_xClose nulls it). -/
structure APSWVFSFile where
  base : Option SQLite3File

/-- Names of underlying io-method slots actually invoked during a
delegation call; every apswvfsfilepy function below also returns the
list of slots it forwarded to, so that "does not forward" is provable. -/
abbrev FwTrace := List String

/-- The while loop in apswvfsfilepy_xRead that re-derives the true length
of a short read: starting from amount, shrink while the byte just before
the current end is zero. -/
def shortReadLength (buf : List Nat) : Nat → Nat
  | 0 => 0
  | n + 1 => if buf.getD n 0 = 0 then shortReadLength buf n else n + 1

/-- apswvfsfilepy_xRead (vfs.c): delegation of read to the base file.
Fails with the file-closed fault when the handle is closed, with the
not-implemented fault when the base lacks the slot; a success returns the
full amount-byte buffer, the dedicated short-read code returns the buffer
with trailing zero bytes stripped, any other code raises. -/
def apswvfsfilepy_xRead (self : APSWVFSFile) (amount : Nat) (offset : Int) :
    Except ExcKind (List Nat) × FwTrace :=
  match self.base with
  | none => (.error .vfsFileClosed, [])
  | some b =>
    match b.pMethods.xRead with
    | none => (.error (.vfsNotImplemented "xRead"), [])
    | some f =>
      let r := f amount offset
      if r.1 = SQLITE_OK then (.ok r.2, ["xRead"])
      else if r.1 = SQLITE_IOERR_SHORT_READ then
        (.ok (r.2.take (shortReadLength r.2 amount)), ["xRead"])
      else (.error (.sqliteExc r.1), ["xRead"])

/-- apswvfsfilepy_xWrite (vfs.c): delegation of write to the base file. -/
def apswvfsfilepy_xWrite (self : APSWVFSFile) (data : List Nat) (offset : Int) :
    Except ExcKind Unit × FwTrace :=
  match self.base with
  | none => (.error .vfsFileClosed, [])
  | some b =>
    match b.pMethods.xWrite with
    | none => (.error (.vfsNotImplemented "xWrite"), [])
    | some f =>
      let res := f data offset
      if res = SQLITE_OK then (.ok (), ["xWrite"])
      else (.error (.sqliteExc res), ["xWrite"])

/-- apswvfsfilepy_xTruncate (vfs.c): delegation of truncate. -/
def apswvfsfilepy_xTruncate (self : APSWVFSFile) (size : Int) :
    Except ExcKind Unit × FwTrace :=
  match self.base with
  | none => (.error .vfsFileClosed, [])
  | some b =>
    match b.pMethods.xTruncate with
    | none => (.error (.vfsNotImplemented "xTruncate"), [])
    | some f =>
      let res := f size
      if res = SQLITE_OK then (.ok (), ["xTruncate"])
      else (.error (.sqliteExc res), ["xTruncate"])

/-- apswvfsfilepy_xSync (vfs.c): delegation of sync. -/
def apswvfsfilepy_xSync (self : APSWVFSFile) (flags : Nat) :
    Except ExcKind Unit × FwTrace :=
  match self.base with
  | none => (.error .vfsFileClosed, [])
  | some b =>
    match b.pMethods.xSync with
    | none => (.error (.vfsNotImplemented "xSync"), [])
    | some f =>
      let res := f flags
      if res = SQLITE_OK then (.ok (), ["xSync"])
      else (.error (.sqliteExc res), ["xSync"])

/-- apswvfsfilepy_xLock (vfs.c): delegation of lock. -/
def apswvfsfilepy_xLock (self : APSWVFSFile) (flag : Nat) :
    Except ExcKind Unit × FwTrace :=
  match self.base with
  | none => (.error .vfsFileClosed, [])
  | some b =>
    match b.pMethods.xLock with
    | none => (.error (.vfsNotImplemented "xLock"), [])
    | some f =>
      let res := f flag
      if res = SQLITE_OK then (.ok (), ["xLock"])
      else (.error (.sqliteExc res), ["xLock"])

/-- apswvfsfilepy_xUnlock (vfs.c): delegation of unlock. -/
def apswvfsfilepy_xUnlock (self : APSWVFSFile) (flag : Nat) :
    Except ExcKind Unit × FwTrace :=
  match self.base with
  | none => (.error .vfsFileClosed, [])
  | some b =>
    match b.pMethods.xUnlock with
    | none => (.error (.vfsNotImplemented "xUnlock"), [])
    | some f =>
      let res := f flag
      if res = SQLITE_OK then (.ok (), ["xUnlock"])
      else (.error (.sqliteExc res), ["xUnlock"])

/-- apswvfsfilepy_xCheckReservedLock (vfs.c): delegation of the reserved
lock check; on success the out parameter becomes a boolean. -/
def apswvfsfilepy_xCheckReservedLock (self : APSWVFSFile) :
    Except ExcKind Bool × FwTrace :=
  match self.base with
  | none => (.error .vfsFileClosed, [])
  | some b =>
    match b.pMethods.xCheckReservedLock with
    | none => (.error (.vfsNotImplemented "xCheckReservedLock"), [])
    | some r =>
      if r.1 = SQLITE_OK then (.ok (r.2 ≠ 0), ["xCheckReservedLock"])
      else (.error (.sqliteExc r.1), ["xCheckReservedLock"])

/-- apswvfsfilepy_xFileControl (vfs.c): delegation of file control. -/
def apswvfsfilepy_xFileControl (self : APSWVFSFile) (op : Nat) (ptr : Int) :
    Except ExcKind Unit × FwTrace :=
  match self.base with
  | none => (.error .vfsFileClosed, [])
  | some b =>
    match b.pMethods.xFileControl with
    | none => (.error (.vfsNotImplemented "xFileControl"), [])
    | some f =>
      let res := f op ptr
      if res = SQLITE_OK then (.ok (), ["xFileControl"])
      else (.error (.sqliteExc res), ["xFileControl"])

/-- apswvfsfilepy_xSectorSize (vfs.c): delegation of sector size; the
underlying slot has no error channel so its value is returned directly. -/
def apswvfsfilepy_xSectorSize (self : APSWVFSFile) :
    Except ExcKind Nat × FwTrace :=
  match self.base with
  | none => (.error .vfsFileClosed, [])
  | some b =>
    match b.pMethods.xSectorSize with
    | none => (.error (.vfsNotImplemented "xSectorSize"), [])
    | some v => (.ok v, ["xSectorSize"])

/-- apswvfsfilepy_xDeviceCharacteristics (vfs.c): delegation of device
characteristics; no error channel on the underlying slot. -/
def apswvfsfilepy_xDeviceCharacteristics (self : APSWVFSFile) :
    Except ExcKind Nat × FwTrace :=
  match self.base with
  | none => (.error .vfsFileClosed, [])
  | some b =>
    match b.pMethods.xDeviceCharacteristics with
    | none => (.error (.vfsNotImplemented "xDeviceCharacteristics"), [])
    | some v => (.ok v, ["xDeviceCharacteristics"])

/-- apswvfsfilepy_xFileSize (vfs.c): delegation of file size. -/
def apswvfsfilepy_xFileSize (self : APSWVFSFile) :
    Except ExcKind Int × FwTrace :=
  match self.base with
  | none => (.error .vfsFileClosed, [])
  | some b =>
    match b.pMethods.xFileSize with
    | none => (.error (.vfsNotImplemented "xFileSize"), [])
    | some r =>
      if r.1 = SQLITE_OK then (.ok r.2, ["xFileSize"])
      else (.error (.sqliteExc r.1), ["xFileSize"])

/-- Steps apswvfsfilepy_xClose performs on a still-open handle, in
order: invoke the underlying close slot, null the operation table
(pMethods), free and null the base record. -/
inductive CloseEvent
  | callBaseClose
  | nullPMethods
  | freeBase
  deriving DecidableEq

/-- apswvfsfilepy_xClose (vfs.c): a closed handle (base null) returns
success immediately with no effect; otherwise the underlying close slot
runs first, only then is the operation table nulled and the base record
freed and nulled, and the underlying status decides success. -/
def apswvfsfilepy_xClose (self : APSWVFSFile) :
    Except ExcKind Unit × APSWVFSFile × List CloseEvent :=
  match self.base with
  | none => (.ok (), self, [])
  | some b =>
    let res := b.pMethods.xClose
    let events := [CloseEvent.callBaseClose, CloseEvent.nullPMethods, CloseEvent.freeBase]
    let snew : APSWVFSFile := { base := none }
    if res = SQLITE_OK then (.ok (), snew, events)
    else (.error (.sqliteExc res), snew, events)

/-- A record in the engine's global VFS registry: the fields of
sqlite3_vfs that vfs.c reads or writes. -/
structure VFSRec where
  zName : String
  iVersion : Nat
  mxPathname : Nat
  deriving DecidableEq

/-- Modelled from the spec: sqlite3_vfs_find belongs to the engine,
consumed via its C ABI and not part of src.  The registry is a list with
the default VFS first; lookup by name finds the record so named, lookup
with no name yields the default. -/
def sqlite3_vfs_find (reg : List VFSRec) (name : Option String) :
    Option VFSRec :=
  match name with
  | none => reg.head?
  | some n => reg.find? (fun r => r.zName = n)

/-- Modelled from the spec: sqlite3_vfs_register belongs to the engine.
Registering replaces any record of the same name; the record goes to the
front when made default, to the back otherwise; the call succeeds. -/
def sqlite3_vfs_register (reg : List VFSRec) (v : VFSRec)
    (makedefault : Bool) : List VFSRec × Nat :=
  let rest := reg.filter (fun r => r.zName ≠ v.zName)
  ((if makedefault then v :: rest else rest ++ [v]), SQLITE_OK)

/-- Modelled from the spec: sqlite3_vfs_unregister belongs to the engine.
It removes the record of the given name from the registry; as the vfs.c
comment notes, from engine version 3.6.3 it returns only the success
code. -/
def sqlite3_vfs_unregister (reg : List VFSRec) (name : String) :
    List VFSRec × Nat :=
  (reg.filter (fun r => r.zName ≠ name), SQLITE_OK)

/-- The APSWVFS Python object: the base VFS it inherits from (if any),
the sqlite3_vfs record it handed to the engine, and the registered
flag. -/
structure APSWVFS where
  basevfs : Option VFSRec
  containingvfs : VFSRec
  registered : Bool
  deriving DecidableEq

/-- APSWVFS_init (vfs.c): resolve the base by name (an empty string means
the engine default), reject a missing base or a base whose vtable version
is not 1, build the containing sqlite3_vfs record (inheriting mxPathname
from the base when no explicit maxpathname was given, defaulting to 1024)
and register it.  Returns the constructed object or the construction
fault, paired with the resulting registry (unchanged on failure). -/
def APSWVFS_init (reg : List VFSRec) (name : String) (base : Option String)
    (makedefault : Bool) (maxpathname : Nat) :
    Except ExcKind APSWVFS × List VFSRec :=
  let basevfsE : Except ExcKind (Option VFSRec) :=
    match base with
    | none => .ok none
    | some bs =>
      let key := if bs = "" then none else some bs
      match sqlite3_vfs_find reg key with
      | none => .error (.valueErrorBaseNotFound bs)
      | some bv =>
        if bv.iVersion ≠ 1 then .error (.valueErrorBadVersion bv.iVersion)
        else .ok (some bv)
  match basevfsE with
  | .error e => (.error e, reg)
  | .ok basevfs =>
    let mx :=
      match basevfs with
      | some bv => if maxpathname = 0 then bv.mxPathname else maxpathname
      | none => if maxpathname = 0 then 1024 else maxpathname
    let cv : VFSRec := { zName := name, iVersion := 1, mxPathname := mx }
    let rr := sqlite3_vfs_register reg cv makedefault
    if rr.2 = SQLITE_OK then
      (.ok { basevfs := basevfs, containingvfs := cv, registered := true }, rr.1)
    else
      (.error (.sqliteExc rr.2), reg)

/-- apswvfspy_unregister (vfs.c): when still registered, unregister from
the engine and clear the registered flag (assumed to drop the entry even
on an engine failure, per the comment in vfs.c); when already
unregistered, succeed with no effect. -/
def apswvfspy_unregister (self : APSWVFS) (reg : List VFSRec) :
    Except ExcKind Unit × APSWVFS × List VFSRec :=
  if self.registered then
    let rr := sqlite3_vfs_unregister reg self.containingvfs.zName
    let self2 : APSWVFS := { self with registered := false }
    if rr.2 = SQLITE_OK then (.ok (), self2, rr.1)
    else (.error (.sqliteExc rr.2), self2, rr.1)
  else (.ok (), self, reg)

/-- The error bridge never maps a fault to the success code. -/
lemma makeSqliteMsg_ne_ok (e : ExcKind) :
    MakeSqliteMsgFromPyException e ≠ SQLITE_OK := by
  cases e <;> simp [MakeSqliteMsgFromPyException, SQLITE_ERROR, SQLITE_OK] <;>
    split <;> simp_all

/-- Claim C1: in apswvfsfile_xRead, a managed buffer shorter than the
requested amount yields an output buffer holding the returned data
followed by zero bytes filling the tail and the dedicated short-read
status, which differs from the plain success code; a buffer of at least
amount bytes has exactly amount bytes copied and success returned. -/
theorem xRead_short_read_zero_fill (data : List Nat) (amount : Nat)
    (bufout : List Nat) (s : PyState) :
    (data.length < amount →
      apswvfsfile_xRead (.ok (.buffer data)) amount bufout s =
        ((SQLITE_IOERR_SHORT_READ,
          data ++ List.replicate (amount - data.length) 0), s) ∧
      SQLITE_IOERR_SHORT_READ ≠ SQLITE_OK) ∧
    (amount ≤ data.length →
      apswvfsfile_xRead (.ok (.buffer data)) amount bufout s =
        ((SQLITE_OK, data.take amount), s) ∧
      (data.take amount).length = amount) := by
  constructor
  · intro h
    refine ⟨?_, by decide⟩
    simp [apswvfsfile_xRead, runFileEntry, pyErrFetch, pyErrRestore,
      apsw_write_unraiseable, h]
  · intro h
    refine ⟨?_, by simp [List.length_take, Nat.min_eq_left h]⟩
    simp [apswvfsfile_xRead, runFileEntry, pyErrFetch, pyErrRestore,
      apsw_write_unraiseable, Nat.not_lt.mpr h]

/-- Claim C1 witness: a 2-byte managed buffer against a 3-byte request is
zero-filled and short-read; a 3-byte buffer against a 2-byte request is
copied to exactly 2 bytes with success. -/
theorem xRead_short_read_zero_fill_witness :
    (apswvfsfile_xRead (.ok (.buffer [1, 2])) 3 [9, 9, 9] ⟨none, []⟩ =
      ((SQLITE_IOERR_SHORT_READ, [1, 2, 0]), ⟨none, []⟩) ∧
      SQLITE_IOERR_SHORT_READ ≠ SQLITE_OK) ∧
    (apswvfsfile_xRead (.ok (.buffer [1, 2, 3])) 2 [9, 9] ⟨none, []⟩ =
      ((SQLITE_OK, [1, 2]), ⟨none, []⟩) ∧ ([1, 2, 3].take 2).length = 2) := by
  constructor
  · have h := (xRead_short_read_zero_fill [1, 2] 3 [9, 9, 9] ⟨none, []⟩).1
      (by decide)
    simpa using h
  · have h := (xRead_short_read_zero_fill [1, 2, 3] 2 [9, 9] ⟨none, []⟩).2
      (by decide)
    simpa using h

/-- Claim C5: in apswvfs_xFullPathname, a managed result whose UTF-8
encoding plus terminator exceeds the capacity nOut fails with the
dedicated path-too-long code and leaves the output buffer untouched (the
raised too-big fault reaching the unraisable sink); a result that fits is
copied in full, terminator included, with success. -/
theorem xFullPathname_capacity (u : List Nat) (nOut : Nat)
    (zOut : List Nat) (s : PyState) :
    (u.length + 1 > nOut →
      apswvfs_xFullPathname (.ok (.str u)) nOut zOut s =
        ((SQLITE_TOOBIG, zOut),
          { s with unraisables := s.unraisables ++ [.sqliteExc SQLITE_TOOBIG] }) ∧
      SQLITE_TOOBIG ≠ SQLITE_OK) ∧
    (u.length + 1 ≤ nOut →
      apswvfs_xFullPathname (.ok (.str u)) nOut zOut s =
        ((SQLITE_OK, (u ++ [0]) ++ zOut.drop (u.length + 1)), s) ∧
      ((u ++ [0]) ++ zOut.drop (u.length + 1)).take (u.length + 1) =
        u ++ [0]) := by
  constructor
  · intro h
    refine ⟨?_, by decide⟩
    simp [apswvfs_xFullPathname, runVFSEntry, pyErrFetch, pyErrRestore,
      apsw_write_unraiseable, pyRaise, h]
  · intro h
    refine ⟨?_, ?_⟩
    · simp [apswvfs_xFullPathname, runVFSEntry, pyErrFetch, pyErrRestore,
        apsw_write_unraiseable, Nat.not_lt.mpr h]
    · have hl : (u ++ [0]).length = u.length + 1 := by simp
      rw [← hl, List.take_left]

/-- Claim C5 witness: a 3-byte path against capacity 3 is too big and
leaves the buffer untouched; against capacity 4 it is copied with its
terminator. -/
theorem xFullPathname_capacity_witness :
    (apswvfs_xFullPathname (.ok (.str [7, 8, 9])) 3 [5, 5, 5] ⟨none, []⟩ =
      ((SQLITE_TOOBIG, [5, 5, 5]),
        ⟨none, [.sqliteExc SQLITE_TOOBIG]⟩) ∧
      SQLITE_TOOBIG ≠ SQLITE_OK) ∧
    (apswvfs_xFullPathname (.ok (.str [7, 8, 9])) 4 [5, 5, 5, 5] ⟨none, []⟩ =
      ((SQLITE_OK, [7, 8, 9, 0]), ⟨none, []⟩) ∧
      ([7, 8, 9, 0] : List Nat).take 4 = [7, 8, 9, 0]) := by
  constructor
  · have h := (xFullPathname_capacity [7, 8, 9] 3 [5, 5, 5] ⟨none, []⟩).1
      (by decide)
    simpa using h
  · have h := (xFullPathname_capacity [7, 8, 9] 4 [5, 5, 5, 5] ⟨none, []⟩).2
      (by decide)
    simpa using h

/-- Claim C7: in apswvfsfile_xLock, a managed fault whose bridged status
has the busy code in its low byte is returned as that busy status with
the exception cleared, so nothing reaches the unraisable sink; any other
fault is returned as its status and does reach the sink. -/
theorem xLock_busy_suppressed (e : ExcKind) (flag : Nat) (s : PyState) :
    (MakeSqliteMsgFromPyException e % 256 = SQLITE_BUSY →
      apswvfsfile_xLock (.error e) flag s =
        (MakeSqliteMsgFromPyException e, s)) ∧
    (MakeSqliteMsgFromPyException e % 256 ≠ SQLITE_BUSY →
      apswvfsfile_xLock (.error e) flag s =
        (MakeSqliteMsgFromPyException e,
          { s with unraisables := s.unraisables ++ [e] })) := by
  constructor
  · intro h
    simp [apswvfsfile_xLock, runFileEntry, pyErrFetch, pyErrRestore,
      apsw_write_unraiseable, pyRaise, pyErrClear, h]
  · intro h
    simp [apswvfsfile_xLock, runFileEntry, pyErrFetch, pyErrRestore,
      apsw_write_unraiseable, pyRaise, pyErrClear, h]

/-- Claim C7 witness: a busy-coded managed fault is suppressed while a
generic fault reaches the sink. -/
theorem xLock_busy_suppressed_witness :
    (apswvfsfile_xLock (.error (.userExc SQLITE_BUSY)) 2 ⟨none, []⟩ =
      (SQLITE_BUSY, ⟨none, []⟩)) ∧
    (apswvfsfile_xLock (.error (.userExc SQLITE_IOERR)) 2 ⟨none, []⟩ =
      (SQLITE_IOERR, ⟨none, [.userExc SQLITE_IOERR]⟩)) := by
  constructor
  · have h := (xLock_busy_suppressed (.userExc SQLITE_BUSY) 2 ⟨none, []⟩).1
      (by decide)
    simpa using h
  · have h := (xLock_busy_suppressed (.userExc SQLITE_IOERR) 2 ⟨none, []⟩).2
      (by decide)
    simpa using h

/-- Claim C10 counterexample: the managed xAccess returning the nonzero
integer 2 to the 64th power is not normalized to out parameter 1 with
success: the conversion overflows the native long, so the call returns
the generic error status with out parameter 0. -/
theorem xAccess_nonzero_overflow_counterexample :
    (apswvfs_xAccess (.ok (.int (2 ^ 64))) ⟨none, []⟩).1 = (SQLITE_ERROR, 0) ∧
    ((SQLITE_ERROR, 0) : Nat × Nat) ≠ (SQLITE_OK, 1) := by
  constructor
  · rfl
  · decide

/-- Claim C10 as amended: apswvfs_xAccess writes its integer out
parameter as exactly 0 or 1 on every path; a managed integer within the
native long range becomes 1 when nonzero and 0 when zero, with success;
an integer beyond that range raises an overflow fault (sent to the
unraisable sink) with out parameter 0 and a non-success status; a
non-integer return raises a type fault (sent to the unraisable sink)
with the out parameter 0 and a non-success status; a managed fault also
yields out parameter 0 and a non-success status from the error bridge. -/
theorem xAccess_normalises_out_in_long_range (m : Except ExcKind PyVal)
    (z : Int) (e : ExcKind) (s : PyState) :
    ((apswvfs_xAccess m s).1.2 = 0 ∨ (apswvfs_xAccess m s).1.2 = 1) ∧
    (fitsCLong z = true →
      (apswvfs_xAccess (.ok (.int z)) s).1 =
        (SQLITE_OK, if z = 0 then 0 else 1)) ∧
    (fitsCLong z = false →
      (apswvfs_xAccess (.ok (.int z)) s) =
        ((SQLITE_ERROR, 0),
          { s with unraisables := s.unraisables ++
              [.overflowError "Python int too large to convert to C long"] })) ∧
    (apswvfs_xAccess (.ok .notNumber) s) =
      ((SQLITE_ERROR, 0),
        { s with unraisables :=
            s.unraisables ++ [.typeError "xAccess should return a number"] }) ∧
    SQLITE_ERROR ≠ SQLITE_OK ∧
    (apswvfs_xAccess (.error e) s).1 = (MakeSqliteMsgFromPyException e, 0) ∧
    MakeSqliteMsgFromPyException e ≠ SQLITE_OK := by
  refine ⟨?_, ?_, ?_, ?_, by decide, ?_, makeSqliteMsg_ne_ok e⟩
  · rcases m with e' | v
    · left
      simp [apswvfs_xAccess, runVFSEntry, pyErrFetch]
    · rcases v with z' | _
      · by_cases hz : z' = 0
        · subst hz
          left
          simp [apswvfs_xAccess, runVFSEntry, pyErrFetch, fitsCLong]
        · by_cases hfit : fitsCLong z' = true
          · right
            simp [apswvfs_xAccess, runVFSEntry, pyErrFetch, hfit, hz]
          · left
            simp [apswvfs_xAccess, runVFSEntry, pyErrFetch,
              Bool.eq_false_iff.mpr hfit]
      · left
        simp [apswvfs_xAccess, runVFSEntry, pyErrFetch]
  · intro hfit
    by_cases hz : z = 0
    · subst hz
      simp [apswvfs_xAccess, runVFSEntry, pyErrFetch, fitsCLong]
    · simp [apswvfs_xAccess, runVFSEntry, pyErrFetch, hfit, hz]
  · intro hfit
    simp [apswvfs_xAccess, runVFSEntry, pyErrFetch, pyErrRestore,
      apsw_write_unraiseable, pyRaise, hfit, MakeSqliteMsgFromPyException,
      SQLITE_ERROR]
  · simp [apswvfs_xAccess, runVFSEntry, pyErrFetch, pyErrRestore,
      apsw_write_unraiseable, pyRaise, MakeSqliteMsgFromPyException,
      SQLITE_ERROR]
  · simp [apswvfs_xAccess, runVFSEntry, pyErrFetch]

/-- Claim C10 amended-theorem witness: the in-range nonzero integer 5 is
normalized to 1 with success, and the out-of-range integer 2 to the 64th
power yields the overflow fault in the sink with out parameter 0. -/
theorem xAccess_normalises_out_in_long_range_witness :
    (apswvfs_xAccess (.ok (.int 5)) ⟨none, []⟩).1 = (SQLITE_OK, 1) ∧
    (apswvfs_xAccess (.ok (.int (2 ^ 64))) ⟨none, []⟩) =
      ((SQLITE_ERROR, 0),
        ⟨none,
          [.overflowError "Python int too large to convert to C long"]⟩) := by
  constructor
  · have h := (xAccess_normalises_out_in_long_range (.ok (.int 5)) 5
      (.vfsFileClosed) ⟨none, []⟩).2.1 (by decide)
    simpa using h
  · have h := (xAccess_normalises_out_in_long_range (.ok (.int (2 ^ 64)))
      (2 ^ 64) (.vfsFileClosed) ⟨none, []⟩).2.2.1 (by decide)
    simpa using h

/-- A body that raises a fault, used to exhibit the unraisable routing of
the entry-point wrappers on a concrete input. -/
def probeBody (st : PyState) : Nat × PyState :=
  (0, pyRaise .vfsFileClosed st)

/-- Claim C2: every native-call entry point wrapper (whole-VFS and
per-file) restores the caller's pending-fault state on every exit path:
the final pending exception equals the one in effect at entry, the body
runs with a cleared pending exception, and any fault the body leaves
pending is routed to the unraisable sink instead; the concrete dispatch
functions built on the wrappers inherit the preservation. -/
theorem entry_points_preserve_pending (α : Type)
    (body : PyState → α × PyState) (s : PyState) (m : Except ExcKind PyVal)
    (mr : Except ExcKind XReadResult) (ml : Except ExcKind Unit)
    (mp : Except ExcKind FullPathResult) (amount flag nOut : Nat)
    (bufout zOut : List Nat) :
    ((runVFSEntry body s).2.pending = s.pending ∧
     (runFileEntry body s).2.pending = s.pending) ∧
    (pyErrFetch s).2.pending = none ∧
    (∀ e, (body { pending := none, unraisables := s.unraisables }).2.pending =
        some e →
      e ∈ (runVFSEntry body s).2.unraisables ∧
      e ∈ (runFileEntry body s).2.unraisables) ∧
    (apswvfs_xAccess m s).2.pending = s.pending ∧
    (apswvfsfile_xRead mr amount bufout s).2.pending = s.pending ∧
    (apswvfsfile_xLock ml flag s).2.pending = s.pending ∧
    (apswvfs_xFullPathname mp nOut zOut s).2.pending = s.pending := by
  refine ⟨⟨rfl, rfl⟩, rfl, ?_, rfl, rfl, rfl, rfl⟩
  intro e he
  have hmem : e ∈ (apsw_write_unraiseable
      (body { pending := none, unraisables := s.unraisables }).2).unraisables := by
    rw [apsw_write_unraiseable, he]
    exact List.mem_append_right _ (List.mem_singleton.mpr rfl)
  exact ⟨hmem, hmem⟩

/-- Claim C2 witness: with a pending fault already in flight and a body
that raises, the pending fault survives both wrappers and the raised
fault lands in the sink. -/
theorem entry_points_preserve_pending_witness :
    ((runVFSEntry probeBody ⟨some (.sqliteExc 5), []⟩).2.pending =
        some (.sqliteExc 5) ∧
      (runFileEntry probeBody ⟨some (.sqliteExc 5), []⟩).2.pending =
        some (.sqliteExc 5)) ∧
    (ExcKind.vfsFileClosed ∈
        (runVFSEntry probeBody ⟨some (.sqliteExc 5), []⟩).2.unraisables ∧
      ExcKind.vfsFileClosed ∈
        (runFileEntry probeBody ⟨some (.sqliteExc 5), []⟩).2.unraisables) := by
  have h := entry_points_preserve_pending Nat probeBody
    ⟨some (.sqliteExc 5), []⟩ (.ok .notNumber) (.ok .notBuffer) (.ok ())
    (.ok .notStr) 0 0 0 [] []
  exact ⟨h.1, h.2.2.1 .vfsFileClosed rfl⟩

/-- Claim C3: apswvfsfilepy_xClose on an open handle whose underlying
close slot succeeds returns success, nulls the base pointer, and follows
the order invoke-close, null-the-operation-table, free-the-record; a
second close on the now-closed handle returns success with no events at
all (no second underlying close, no second free). -/
theorem xClose_idempotent (b : SQLite3File)
    (h : b.pMethods.xClose = SQLITE_OK) :
    apswvfsfilepy_xClose { base := some b } =
      (.ok (), { base := none },
        [.callBaseClose, .nullPMethods, .freeBase]) ∧
    apswvfsfilepy_xClose { base := none } = (.ok (), { base := none }, []) := by
  constructor
  · simp [apswvfsfilepy_xClose, h]
  · rfl

/-- Claim C3 witness: a concrete open handle closed twice. -/
theorem xClose_idempotent_witness :
    apswvfsfilepy_xClose
        { base := some ⟨⟨SQLITE_OK, none, none, none, none, none, none,
            none, none, none, none, none⟩⟩ } =
      (.ok (), { base := none },
        [.callBaseClose, .nullPMethods, .freeBase]) ∧
    apswvfsfilepy_xClose { base := none } = (.ok (), { base := none }, []) :=
  xClose_idempotent
    ⟨⟨SQLITE_OK, none, none, none, none, none, none, none, none, none,
      none, none⟩⟩ rfl

/-- Claim C6: on a closed handle (base pointer null) every per-file
delegation operation other than close fails with the dedicated
file-closed fault and forwards to no underlying slot. -/
theorem closed_handle_ops_fail (amount : Nat) (offset : Int)
    (data : List Nat) (size : Int) (flags flag op : Nat) (ptr : Int) :
    apswvfsfilepy_xRead { base := none } amount offset =
      (.error .vfsFileClosed, []) ∧
    apswvfsfilepy_xWrite { base := none } data offset =
      (.error .vfsFileClosed, []) ∧
    apswvfsfilepy_xTruncate { base := none } size =
      (.error .vfsFileClosed, []) ∧
    apswvfsfilepy_xSync { base := none } flags =
      (.error .vfsFileClosed, []) ∧
    apswvfsfilepy_xLock { base := none } flag =
      (.error .vfsFileClosed, []) ∧
    apswvfsfilepy_xUnlock { base := none } flag =
      (.error .vfsFileClosed, []) ∧
    apswvfsfilepy_xCheckReservedLock { base := none } =
      (.error .vfsFileClosed, []) ∧
    apswvfsfilepy_xFileControl { base := none } op ptr =
      (.error .vfsFileClosed, []) ∧
    apswvfsfilepy_xSectorSize { base := none } =
      (.error .vfsFileClosed, []) ∧
    apswvfsfilepy_xDeviceCharacteristics { base := none } =
      (.error .vfsFileClosed, []) ∧
    apswvfsfilepy_xFileSize { base := none } =
      (.error .vfsFileClosed, []) :=
  ⟨rfl, rfl, rfl, rfl, rfl, rfl, rfl, rfl, rfl, rfl, rfl⟩

/-- The recovered short length never exceeds the requested amount. -/
lemma shortReadLength_le (buf : List Nat) : ∀ n, shortReadLength buf n ≤ n := by
  intro n
  induction n with
  | zero => simp [shortReadLength]
  | succ k ih =>
    simp only [shortReadLength]
    split
    · exact le_trans ih (Nat.le_succ k)
    · exact le_refl _

/-- Every byte of the region dropped by the recovery loop is zero. -/
lemma shortReadLength_tail_zero (buf : List Nat) :
    ∀ n i, shortReadLength buf n ≤ i → i < n → buf.getD i 0 = 0 := by
  intro n
  induction n with
  | zero => intro i h1 h2; omega
  | succ k ih =>
    intro i h1 h2
    by_cases hc : buf.getD k 0 = 0
    · have hs : shortReadLength buf (k + 1) = shortReadLength buf k := by
        simp only [shortReadLength, if_pos hc]
      rcases Nat.lt_succ_iff_lt_or_eq.mp h2 with hik | hik
      · exact ih i (hs ▸ h1) hik
      · subst hik
        exact hc
    · have hs : shortReadLength buf (k + 1) = k + 1 := by
        simp only [shortReadLength, if_neg hc]
      omega

/-- The recovered data does not itself end in a zero byte: the loop
strips every trailing zero. -/
lemma shortReadLength_last_nonzero (buf : List Nat) :
    ∀ n, 0 < shortReadLength buf n →
      buf.getD (shortReadLength buf n - 1) 0 ≠ 0 := by
  intro n
  induction n with
  | zero => intro h; simp [shortReadLength] at h
  | succ k ih =>
    intro h
    by_cases hc : buf.getD k 0 = 0
    · have hs : shortReadLength buf (k + 1) = shortReadLength buf k := by
        simp only [shortReadLength, if_pos hc]
      rw [hs] at h ⊢
      exact ih h
    · have hs : shortReadLength buf (k + 1) = k + 1 := by
        simp only [shortReadLength, if_neg hc]
      rw [hs]
      simpa using hc

/-- An amount-byte buffer splits into the recovered data followed by the
all-zero tail the recovery loop stripped. -/
lemma take_shortReadLength_append_zeros (buf : List Nat) (amount : Nat)
    (h : buf.length = amount) :
    buf = buf.take (shortReadLength buf amount) ++
      List.replicate (amount - shortReadLength buf amount) 0 := by
  have hkle : shortReadLength buf amount ≤ amount := shortReadLength_le buf amount
  have hdrop : buf.drop (shortReadLength buf amount) =
      List.replicate (amount - shortReadLength buf amount) 0 := by
    apply List.ext_getElem
    · simp [h]
    · intro i h1 h2
      rw [List.getElem_drop, List.getElem_replicate]
      have hlt : shortReadLength buf amount + i < buf.length := by
        simp at h1
        omega
      have hz := shortReadLength_tail_zero buf amount
        (shortReadLength buf amount + i) (by omega) (by omega)
      rwa [List.getD_eq_getElem buf 0 hlt] at hz
  conv_lhs => rw [← List.take_append_drop (shortReadLength buf amount) buf]
  rw [hdrop]

/-- Claim C8: a delegated read that receives the dedicated short-read
status from the base returns the amount-byte buffer with every trailing
zero byte stripped: the buffer is the result followed by an all-zero
tail, and the result does not end in zero. -/
theorem delegated_read_strips_trailing_zeros (b : SQLite3File)
    (f : Nat → Int → Nat × List Nat) (amount : Nat) (offset : Int)
    (buf : List Nat) (hm : b.pMethods.xRead = some f)
    (hf : f amount offset = (SQLITE_IOERR_SHORT_READ, buf))
    (hlen : buf.length = amount) :
    apswvfsfilepy_xRead { base := some b } amount offset =
      (.ok (buf.take (shortReadLength buf amount)), ["xRead"]) ∧
    buf = buf.take (shortReadLength buf amount) ++
      List.replicate (amount - shortReadLength buf amount) 0 ∧
    (0 < shortReadLength buf amount →
      buf.getD (shortReadLength buf amount - 1) 0 ≠ 0) := by
  refine ⟨?_, take_shortReadLength_append_zeros buf amount hlen,
    shortReadLength_last_nonzero buf amount⟩
  simp [apswvfsfilepy_xRead, hm, hf, SQLITE_IOERR_SHORT_READ, SQLITE_IOERR,
    SQLITE_OK]

/-- The io-methods table of the concrete scenario: after writing the five
bytes of hello at offset 0, the base reports a short read of 10 bytes at
offset 0 as the hello bytes followed by five zero bytes. -/
def helloIoMethods : IoMethods :=
  ⟨SQLITE_OK,
    some (fun _ _ =>
      (SQLITE_IOERR_SHORT_READ, [104, 101, 108, 108, 111, 0, 0, 0, 0, 0])),
    none, none, none, none, none, none, none, none, none, none⟩

/-- Claim C8 witness: the concrete hello scenario — a 10-byte short read
of hello plus five zero bytes recovers exactly the five hello bytes. -/
theorem delegated_read_strips_trailing_zeros_witness :
    apswvfsfilepy_xRead { base := some ⟨helloIoMethods⟩ } 10 0 =
      (.ok [104, 101, 108, 108, 111], ["xRead"]) := by
  have h := delegated_read_strips_trailing_zeros ⟨helloIoMethods⟩
    (fun _ _ =>
      (SQLITE_IOERR_SHORT_READ, [104, 101, 108, 108, 111, 0, 0, 0, 0, 0]))
    10 0 [104, 101, 108, 108, 111, 0, 0, 0, 0, 0] rfl rfl (by decide)
  rw [h.1]
  rfl

/-- Construction without a base always succeeds: the registered object
carries the requested name and the registry comes from the engine
registration call. -/
lemma APSWVFS_init_no_base (reg : List VFSRec) (name : String) (md : Bool)
    (mx : Nat) :
    APSWVFS_init reg name none md mx =
      (.ok ⟨none, ⟨name, 1, if mx = 0 then 1024 else mx⟩, true⟩,
        (sqlite3_vfs_register reg ⟨name, 1, if mx = 0 then 1024 else mx⟩
          md).1) := rfl

/-- Claim C4: constructing and registering a VFS and then unregistering
it succeeds and leaves the engine registry free of that name, clears the
registered flag, and a second unregister is a success-returning no-op
that leaves the flag false. -/
theorem unregister_after_register (reg : List VFSRec) (name : String)
    (md : Bool) (mx : Nat) (self : APSWVFS) (reg1 : List VFSRec)
    (h : APSWVFS_init reg name none md mx = (.ok self, reg1)) :
    (apswvfspy_unregister self reg1).1 = .ok () ∧
    (apswvfspy_unregister self reg1).2.1.registered = false ∧
    (∀ r ∈ (apswvfspy_unregister self reg1).2.2, r.zName ≠ name) ∧
    apswvfspy_unregister (apswvfspy_unregister self reg1).2.1
        (apswvfspy_unregister self reg1).2.2 =
      (.ok (), (apswvfspy_unregister self reg1).2.1,
        (apswvfspy_unregister self reg1).2.2) := by
  rw [APSWVFS_init_no_base] at h
  simp only [Prod.mk.injEq, Except.ok.injEq] at h
  obtain ⟨hself, hreg1⟩ := h
  subst hself
  refine ⟨?_, ?_, ?_, ?_⟩
  · simp [apswvfspy_unregister, sqlite3_vfs_unregister, SQLITE_OK]
  · simp [apswvfspy_unregister, sqlite3_vfs_unregister, SQLITE_OK]
  · intro r hr
    simp [apswvfspy_unregister, sqlite3_vfs_unregister, SQLITE_OK,
      List.mem_filter] at hr
    exact hr.2
  · simp [apswvfspy_unregister, sqlite3_vfs_unregister, SQLITE_OK]

/-- Claim C4 witness: register a VFS named mem with maxpathname 64 into
an empty registry, then unregister twice. -/
theorem unregister_after_register_witness :
    (apswvfspy_unregister ⟨none, ⟨"mem", 1, 64⟩, true⟩ [⟨"mem", 1, 64⟩]).1 =
      .ok () ∧
    (apswvfspy_unregister ⟨none, ⟨"mem", 1, 64⟩, true⟩
        [⟨"mem", 1, 64⟩]).2.1.registered = false ∧
    apswvfspy_unregister
        (apswvfspy_unregister ⟨none, ⟨"mem", 1, 64⟩, true⟩
          [⟨"mem", 1, 64⟩]).2.1
        (apswvfspy_unregister ⟨none, ⟨"mem", 1, 64⟩, true⟩
          [⟨"mem", 1, 64⟩]).2.2 =
      (.ok (),
        (apswvfspy_unregister ⟨none, ⟨"mem", 1, 64⟩, true⟩
          [⟨"mem", 1, 64⟩]).2.1,
        (apswvfspy_unregister ⟨none, ⟨"mem", 1, 64⟩, true⟩
          [⟨"mem", 1, 64⟩]).2.2) := by
  have h := unregister_after_register [] "mem" false 64
    ⟨none, ⟨"mem", 1, 64⟩, true⟩ [⟨"mem", 1, 64⟩] rfl
  exact ⟨h.1, h.2.1, h.2.2.2⟩

/-- Claim C9: VFS construction with a base name fails with the dedicated
bad-version fault naming the offending version when the found base
declares a vtable version other than 1, and with the base-not-found
fault when no base of that name exists; in both cases the registry is
left unchanged (nothing is registered). -/
theorem init_rejects_bad_base (reg : List VFSRec) (name bs : String)
    (md : Bool) (mx : Nat) (bv : VFSRec) :
    (sqlite3_vfs_find reg (if bs = "" then none else some bs) = some bv →
      bv.iVersion ≠ 1 →
      APSWVFS_init reg name (some bs) md mx =
        (.error (.valueErrorBadVersion bv.iVersion), reg)) ∧
    (sqlite3_vfs_find reg (if bs = "" then none else some bs) = none →
      APSWVFS_init reg name (some bs) md mx =
        (.error (.valueErrorBaseNotFound bs), reg)) := by
  constructor
  · intro hfind hv
    simp [APSWVFS_init, hfind, hv]
  · intro hfind
    simp [APSWVFS_init, hfind]

/-- Claim C9 witness: a registry holding one VFS named v2 with vtable
version 2 — constructing on base v2 fails naming version 2, and
constructing on the absent base nope fails with base-not-found, the
registry unchanged both times. -/
theorem init_rejects_bad_base_witness :
    APSWVFS_init [⟨"v2", 2, 100⟩] "shim" (some "v2") false 0 =
      (.error (.valueErrorBadVersion 2), [⟨"v2", 2, 100⟩]) ∧
    APSWVFS_init [⟨"v2", 2, 100⟩] "shim" (some "nope") false 0 =
      (.error (.valueErrorBaseNotFound "nope"), [⟨"v2", 2, 100⟩]) := by
  constructor
  · have h := (init_rejects_bad_base [⟨"v2", 2, 100⟩] "shim" "v2" false 0
      ⟨"v2", 2, 100⟩).1 (by decide) (by decide)
    simpa using h
  · have h := (init_rejects_bad_base [⟨"v2", 2, 100⟩] "shim" "nope" false 0
      ⟨"v2", 2, 100⟩).2 (by decide)
    simpa using h

end ApswVfs
